import Mathlib

/-!
# Verification of the contaIDE posting core

A shallow embedding, in Lean 4, of the core of the `contaIDE_backend`
double-entry accounting engine:

* `core/models.py`        — value types (`ErrorCode`, `LedgerError`, `LineDTO`,
  `EntryDTO`, `EntryResult`);
* `core/validator.py`     — the validation pipeline;
* `core/posting_engine.py`— canonical payloads, idempotence hashing and
  `PostingEngine.post`;
* `db/db_manager.py`      — the shared cached sqlite connection and the
  `transaction()` scope (commit on clean exit, rollback on exception);
* `services/audit_service.py` — the hash-chained audit log;
* `services/closures_service.py` — `ClosuresService.finalize_year`;
* `kernel/validator_adapter.py` — the DB-backed repositories.

Modelling conventions:

* Python `Decimal` values are embedded as exact scaled decimals
  (`Dec`: an integer mantissa with a power-of-ten scale); `quantize('0.01',
  ROUND_HALF_UP)` becomes exact integer-cents rounding with ties away from
  zero, which is what `ROUND_HALF_UP` means for `Decimal`.
* SQLite rows become Lean structures, tables become lists in insertion
  (rowid) order.  The single cached connection of `DBManager` is a pair of
  database states: `committed` (what is durable / visible after a crash or to
  a fresh reader) and `current` (what cursors on the connection see).
  `conn.commit()` copies `current` into `committed`; `conn.rollback()`
  restores `current` from `committed`.  `BEGIN` is counted so that "no
  transaction was opened" is observable.
* SHA-256 of the canonical JSON dump is abstracted as a function
  `H : JVal → String` over the canonical payload values (the payload
  dictionaries are embedded structurally as `JVal`); theorems quantify over
  `H`, concrete witnesses instantiate it.
* Fallible Python code (sqlite calls that may raise, attribute errors) is
  embedded with `Except PyExn`; a `FailPlan` says which storage statement of
  a `post` call raises, modelling injected storage failures.
* Python truthiness (`if idempotence_key:`, `if entry_id:`,
  `x or y or "GEN"`) is embedded by explicit truthiness helpers: `None`,
  `0` and `""` are falsy.
-/

/-- A raised Python exception: its type name and message text. -/
structure PyExn where
  name : String
  text : String
deriving DecidableEq, Repr

/-! ## Exact decimal amounts (`decimal.Decimal`) -/

/-- An exact decimal number `mant / 10^scale`, embedding `decimal.Decimal`. -/
structure Dec where
  mant : Int
  scale : Nat
deriving DecidableEq, Repr

/-- Embeds `0` as a `Dec` (`Decimal("0")`). -/
def Dec.zero : Dec := ⟨0, 0⟩

/-- The sign comparisons Python applies directly to `Decimal` values. -/
def Dec.neg (x : Dec) : Bool := x.mant < 0

/-- Embeds `x > 0` on `Decimal`. -/
def Dec.pos (x : Dec) : Bool := 0 < x.mant

/-- Embeds `x == 0` on `Decimal`. -/
def Dec.isZero (x : Dec) : Bool := x.mant = 0

/-- Round `num / den` to the nearest integer, ties away from zero
(`ROUND_HALF_UP` of `decimal`). -/
def halfRoundAway (num : Int) (den : Nat) : Int :=
  let r : Nat := (num.natAbs * 2 + den) / (2 * den)
  if num < 0 then -(r : Int) else (r : Int)

/-- Embeds `core/posting_engine.py::q2` ∘ cents: the integer-cents value of
`value.quantize(Decimal("0.01"), rounding=ROUND_HALF_UP)`.  Both `q2` and
`cents` of the source are determined by this single integer. -/
def q2c (x : Dec) : Int := halfRoundAway (x.mant * 100) (10 ^ x.scale)

/-- Embeds `q2` on an optional amount: `(value or Decimal("0"))` then quantize.
(`Decimal("0")` is falsy in Python, so `value or Decimal("0")` is `0`
exactly when `value` is `None` or zero; either way `q2` yields `0`.) -/
def q2cOpt (x : Option Dec) : Int := q2c (x.getD Dec.zero)

/-- Embeds `core/posting_engine.py::cents`: `int(q2(value) * 100)`. -/
def cents (x : Dec) : Int := q2c x

/-- Embeds `str(...)` of a two-decimal-place `Decimal` given as integer cents:
always rendered with exactly two decimals, e.g. `"5.00"`, `"-0.13"`. -/
def centsStr (c : Int) : String :=
  (if c < 0 then "-" else "") ++ toString (c.natAbs / 100) ++ "." ++
    (let r := c.natAbs % 100
     (if r < 10 then "0" else "") ++ toString r)

/-! ## String helpers (kernel-computable replacements for library functions) -/

/-- ASCII uppercase of a character (`str.upper` restricted to the ASCII
series tokens the source uses). -/
def upperC (c : Char) : Char :=
  if 97 ≤ c.toNat ∧ c.toNat ≤ 122 then Char.ofNat (c.toNat - 32) else c

/-- Embeds `s.upper()` on ASCII strings. -/
def upperS (s : String) : String := String.mk (s.data.map upperC)

/-- Embeds `s[:n]` on a Python string. -/
def strTake (s : String) (n : Nat) : String := String.mk (s.data.take n)

/-- Does `pat` occur at the head of the list? -/
def prefMatch : List Char → List Char → Bool
  | [], _ => true
  | _ :: _, [] => false
  | a :: as, b :: bs => a == b && prefMatch as bs

/-- Does `pat` occur anywhere in the list? -/
def subMatch (pat : List Char) : List Char → Bool
  | [] => prefMatch pat []
  | c :: rest => prefMatch pat (c :: rest) || subMatch pat rest

/-- Python `pat in s` on strings. -/
def hasSub (s pat : String) : Bool := subMatch pat.data s.data

/-- Byte-lexicographic order of ASCII strings (SQLite text comparison,
used by `BETWEEN` on ISO dates). -/
def chLe : List Char → List Char → Bool
  | [], _ => true
  | _ :: _, [] => false
  | a :: as, b :: bs =>
    if a.toNat < b.toNat then true
    else if b.toNat < a.toNat then false
    else chLe as bs

/-- Embeds `a <= b` as SQLite compares TEXT values. -/
def sLe (a b : String) : Bool := chLe a.data b.data

/-- Embeds `f"{counter:06d}"` for a natural counter: decimal digits, left-padded
with zeros to at least six characters. -/
def pad6 (n : Nat) : String :=
  let s := toString n
  String.mk (List.replicate (6 - s.length) '0') ++ s

/-- Embeds `re.match(r"^\d{4}-\d{2}-\d{2}$", s)` on the entry date. -/
def dateShape (s : String) : Bool :=
  match s.data with
  | [a, b, c, d, e, f, g, h, i, j] =>
    a.isDigit && b.isDigit && c.isDigit && d.isDigit && e == '-' &&
    f.isDigit && g.isDigit && h == '-' && i.isDigit && j.isDigit
  | _ => false

/-! ## Python truthiness -/

/-- Truthiness of an optional string (`None` and `""` are falsy). -/
def strTruthy : Option String → Bool
  | none => false
  | some s => s ≠ ""

/-- Truthiness of an optional integer (`None` and `0` are falsy). -/
def intTruthy : Option Int → Bool
  | none => false
  | some n => n ≠ 0

/-- Python `a or b` where `a` is an optional string and `b` a string. -/
def pyOrStr (a : Option String) (b : String) : String :=
  match a with
  | some s => if s = "" then b else s
  | none => b

/-- Python `a or b` on two optional strings. -/
def pyOrOpt (a b : Option String) : Option String :=
  match a with
  | some s => if s = "" then b else some s
  | none => b

/-- Embeds `(protocol_series or entry.protocol_series or "GEN").upper()` from
`PostingEngine.post`. -/
def seriesOf (caller entrySeries : Option String) : String :=
  upperS (pyOrStr caller (pyOrStr entrySeries "GEN"))

/-! ## `core/models.py` -/

/-- Embeds `core/models.py::ErrorCode`.  Note: the enumeration has *no*
`PERIOD_OPEN` and no `UNBALANCED_ENTRY` member; attribute access on such
names raises `AttributeError` in Python. -/
inductive ErrorCode where
  | UNBALANCED
  | NEGATIVE_AMOUNT
  | INVALID_ACCOUNT
  | PERIOD_CLOSED
  | ALREADY_REVERSED
  | AMBIGUOUS_LINE
  | EMPTY_LINES
  | DB_ERROR
  | IDEMPOTENCE_CONFLICT
  | PROTOCOL_ERROR
  | INVALID_DATE
  | NOT_FOUND
  | VAT_MISMATCH
  | INVALID_INPUT
deriving DecidableEq, Repr

/-- Embeds `core/models.py::LedgerError` (the optional `details` dict is never set
by the code under study and is omitted). -/
structure LedgerError where
  code : ErrorCode
  message : String
deriving DecidableEq, Repr

/-- Embeds `core/models.py::LineDTO`. -/
structure LineDTO where
  account_id : String
  dare : Dec := Dec.zero
  avere : Dec := Dec.zero
deriving DecidableEq, Repr

/-- Embeds `core/models.py::EntryDTO`. -/
structure EntryDTO where
  date : String
  descrizione : String
  lines : List LineDTO
  documento : Option String := none
  document_date : Option String := none
  cliente_fornitore : Option String := none
  reversal_of : Option Int := none
  client_reference_id : Option String := none
  taxable_amount : Option Dec := none
  vat_rate : Option Dec := none
  vat_amount : Option Dec := none
  period : Option String := none
  protocol_series : Option String := none
  idempotence_key : Option String := none
  correlation_id : Option String := none
deriving DecidableEq, Repr

/-- Embeds `core/models.py::EntryResult`.  The `timestamp` field (defaulted to
`datetime.now`) carries no information about the posting logic and is not
modelled. -/
structure EntryResult where
  success : Bool
  entry_id : Option Nat := none
  protocol : Option String := none
  error_details : List LedgerError := []
  errors : List String := []
deriving DecidableEq, Repr

/-! ## Canonical JSON payloads (`core/posting_engine.py`) -/

/-- A JSON value: the payload dictionaries passed to `json.dumps`.  Because
`json.dumps(..., sort_keys=True)` canonicalises key order, a dictionary is
embedded as its field list; the model never reorders fields, so equal
`JVal`s correspond to equal canonical dumps. -/
inductive JVal where
  | jnull : JVal
  | jstr (s : String) : JVal
  | jint (n : Int) : JVal
  | jarr (xs : List JVal) : JVal
  | jobj (fields : List (String × JVal)) : JVal

/-- Encode an optional string field (`None` → JSON `null`). -/
def jOptStr : Option String → JVal
  | none => JVal.jnull
  | some s => JVal.jstr s

/-- Encode an optional integer field. -/
def jOptInt : Option Int → JVal
  | none => JVal.jnull
  | some n => JVal.jint n

/-- Embeds `str(q2(x)) if x is not None else None` from the payload builders. -/
def jOptMoney : Option Dec → JVal
  | none => JVal.jnull
  | some x => JVal.jstr (centsStr (q2c x))

/-- The per-line dict `{"account_code": ..., "dare_cents": ..., "avere_cents": ...}`. -/
def jLine (l : LineDTO) : JVal :=
  JVal.jobj [("account_code", JVal.jstr l.account_id),
             ("dare_cents", JVal.jint (cents l.dare)),
             ("avere_cents", JVal.jint (cents l.avere))]

/-- The inner `"entry"` dict shared by `canonical_payload` and
`idempotence_content` in `core/posting_engine.py`. -/
def jEntryDict (entry : EntryDTO) : JVal :=
  JVal.jobj [("date", JVal.jstr entry.date),
             ("descrizione", JVal.jstr entry.descrizione),
             ("documento", jOptStr entry.documento),
             ("document_date", jOptStr entry.document_date),
             ("cliente_fornitore", jOptStr entry.cliente_fornitore),
             ("reversal_of", jOptInt entry.reversal_of),
             ("client_reference_id", jOptStr entry.client_reference_id),
             ("taxable_amount", jOptMoney entry.taxable_amount),
             ("vat_rate", jOptMoney entry.vat_rate),
             ("vat_amount", jOptMoney entry.vat_amount),
             ("lines", JVal.jarr (entry.lines.map jLine))]

/-- Embeds `core/posting_engine.py::canonical_payload`: the audit payload; includes
the protocol. -/
def canonical_payload (entry : EntryDTO) (user_id : String) (protocol : Option String) : JVal :=
  JVal.jobj [("entry", jEntryDict entry),
             ("protocol", jOptStr protocol),
             ("user", JVal.jstr user_id)]

/-- Embeds `core/posting_engine.py::idempotence_content`: the idempotence payload;
excludes protocol, protocol series and timestamps. -/
def idempotence_content (entry : EntryDTO) (user_id : String) : JVal :=
  JVal.jobj [("entry", jEntryDict entry),
             ("user", JVal.jstr user_id)]

/-- Embeds `payload["timestamp"] = ...` in `AuditService.log_action`: set or
overwrite the `"timestamp"` key of a dict payload. -/
def setAssoc : List (String × JVal) → String → JVal → List (String × JVal)
  | [], k, v => [(k, v)]
  | (k', v') :: rest, k, v =>
    if k' = k then (k, v) :: rest else (k', v') :: setAssoc rest k v

/-- Attach the timestamp to a payload dict. -/
def withTimestamp (p : JVal) (ts : String) : JVal :=
  match p with
  | JVal.jobj fs => JVal.jobj (setAssoc fs "timestamp" (JVal.jstr ts))
  | v => v

/-! ## `core/validator.py` -/

/-- The three read-only repository capabilities consumed by the validator
(`AccountRepo`, `PeriodRepo`, `EntryRepo` protocols).  Each read goes to
storage and may raise (e.g. `sqlite3.OperationalError`), hence `Except`. -/
structure Repos where
  accountExists : String → Except PyExn Bool
  isOpenByDate : String → Except PyExn Bool
  entryExists : Int → Except PyExn Bool
  hasReversalFor : Int → Except PyExn Bool

/-- Embeds `validator.py::validate_balanced`: totals of the quantized sides, as
integer cents (`Decimal` sums of two-place values are exactly their cents). -/
def validate_balanced (entry : EntryDTO) : List LedgerError :=
  let total_dare := entry.lines.foldl (fun acc l => acc + q2c l.dare) 0
  let total_avere := entry.lines.foldl (fun acc l => acc + q2c l.avere) 0
  if total_dare ≠ total_avere then
    [⟨ErrorCode.UNBALANCED,
      "Entry non bilanciata: Dare=" ++ centsStr total_dare ++
      ", Avere=" ++ centsStr total_avere⟩]
  else []

/-- Embeds `validator.py::validate_no_negative`: per-line sign rules on the raw
(unquantized) amounts. -/
def lineSignErrs (l : LineDTO) : List LedgerError :=
  (if l.dare.neg || l.avere.neg then
    [⟨ErrorCode.NEGATIVE_AMOUNT, "Valore negativo su account " ++ l.account_id⟩]
   else []) ++
  (if l.dare.pos && l.avere.pos then
    [⟨ErrorCode.AMBIGUOUS_LINE,
      "Riga ambigua su account " ++ l.account_id ++ ": dare e avere > 0"⟩]
   else []) ++
  (if l.dare.isZero && l.avere.isZero then
    [⟨ErrorCode.EMPTY_LINES,
      "Riga nulla su account " ++ l.account_id ++ ": dare e avere = 0"⟩]
   else [])

/-- Embeds `validator.py::validate_no_negative` over all lines. -/
def validate_no_negative (entry : EntryDTO) : List LedgerError :=
  entry.lines.foldr (fun l acc => lineSignErrs l ++ acc) []

/-- Embeds `validator.py::validate_accounts_exist`: one `INVALID_ACCOUNT` error per
line whose account code does not resolve; each `accounts.exists` read may
raise. -/
def accountsErrs (accountExists : String → Except PyExn Bool) :
    List LineDTO → Except PyExn (List LedgerError)
  | [] => Except.ok []
  | l :: ls => do
    let ex ← accountExists l.account_id
    let rest ← accountsErrs accountExists ls
    pure ((if ex then [] else
      [⟨ErrorCode.INVALID_ACCOUNT, "Account " ++ l.account_id ++ " non esiste"⟩]) ++ rest)

/-- Embeds `validator.py::validate_accounts_exist`. -/
def validate_accounts_exist (entry : EntryDTO) (repos : Repos) :
    Except PyExn (List LedgerError) :=
  accountsErrs repos.accountExists entry.lines

/-- Embeds `validator.py::validate_period_open`: date-shape check, then period
openness via the repository. -/
def validate_period_open (entry : EntryDTO) (repos : Repos) :
    Except PyExn (List LedgerError) :=
  if ¬ dateShape entry.date then
    Except.ok [⟨ErrorCode.INVALID_DATE, "Data non valida: " ++ entry.date⟩]
  else do
    let open_ ← repos.isOpenByDate entry.date
    pure (if ¬ open_ then
      [⟨ErrorCode.PERIOD_CLOSED, "Periodo chiuso per data " ++ entry.date⟩]
    else [])

/-- Render the reversal target id the way the f-strings do. -/
def intStr (n : Int) : String :=
  (if n < 0 then "-" else "") ++ toString n.natAbs

/-- Embeds `validator.py::validate_not_already_reversed` (`if entry.reversal_of:`
is Python truthiness: `None` and `0` skip the rule). -/
def validate_not_already_reversed (entry : EntryDTO) (repos : Repos) :
    Except PyExn (List LedgerError) :=
  if intTruthy entry.reversal_of then do
    let target := entry.reversal_of.getD 0
    let ex ← repos.entryExists target
    if ¬ ex then
      pure [⟨ErrorCode.NOT_FOUND, "Entry " ++ intStr target ++ " non esiste"⟩]
    else do
      let rev ← repos.hasReversalFor target
      pure (if rev then
        [⟨ErrorCode.ALREADY_REVERSED,
          "Entry " ++ intStr target ++ " gia stornata"⟩]
      else [])
  else Except.ok []

/-- Embeds `validator.py::validate_vat_consistency`: applies only when all three
VAT fields are present; `q2(q2(taxable) * q2(rate))` in integer cents. -/
def validate_vat_consistency (entry : EntryDTO) : List LedgerError :=
  match entry.taxable_amount, entry.vat_rate, entry.vat_amount with
  | some t, some r, some a =>
    let expected := halfRoundAway (q2c t * q2c r) 100
    let actual := q2c a
    if expected ≠ actual then
      [⟨ErrorCode.VAT_MISMATCH,
        "IVA incoerente: attesa=" ++ centsStr expected ++
        ", trovata=" ++ centsStr actual⟩]
    else []
  | _, _, _ => []

/-- Embeds `validator.py::validate`: all six rules run; the error lists are
concatenated in rule order.  Exceptions raised by repository reads
propagate (the composite is *not* wrapped in a `try`). -/
def validate (entry : EntryDTO) (repos : Repos) : Except PyExn (List LedgerError) := do
  let e1 := validate_balanced entry
  let e2 := validate_no_negative entry
  let e3 ← validate_accounts_exist entry repos
  let e4 ← validate_period_open entry repos
  let e5 ← validate_not_already_reversed entry repos
  let e6 := validate_vat_consistency entry
  pure (e1 ++ e2 ++ e3 ++ e4 ++ e5 ++ e6)

/-! ### Pure specialisation of the validator

When every repository read returns (no storage failure), `validate` is the
pure function below; `validate_pureRepos` proves the agreement. -/

/-- Repositories from total (never-raising) read functions. -/
def pureRepos (acc : String → Bool) (openBy : String → Bool)
    (exi : Int → Bool) (rev : Int → Bool) : Repos where
  accountExists s := Except.ok (acc s)
  isOpenByDate d := Except.ok (openBy d)
  entryExists n := Except.ok (exi n)
  hasReversalFor n := Except.ok (rev n)

/-- Pure form of `validate_accounts_exist`. -/
def accountsErrsP (acc : String → Bool) (ls : List LineDTO) : List LedgerError :=
  ls.foldr (fun l rest =>
    (if acc l.account_id then [] else
      [⟨ErrorCode.INVALID_ACCOUNT, "Account " ++ l.account_id ++ " non esiste"⟩]) ++ rest) []

/-- Pure form of `validate_period_open`. -/
def periodErrsP (openBy : String → Bool) (entry : EntryDTO) : List LedgerError :=
  if ¬ dateShape entry.date then
    [⟨ErrorCode.INVALID_DATE, "Data non valida: " ++ entry.date⟩]
  else if ¬ openBy entry.date then
    [⟨ErrorCode.PERIOD_CLOSED, "Periodo chiuso per data " ++ entry.date⟩]
  else []

/-- Pure form of `validate_not_already_reversed`. -/
def reversalErrsP (exi : Int → Bool) (rev : Int → Bool) (entry : EntryDTO) :
    List LedgerError :=
  if intTruthy entry.reversal_of then
    let target := entry.reversal_of.getD 0
    if ¬ exi target then
      [⟨ErrorCode.NOT_FOUND, "Entry " ++ intStr target ++ " non esiste"⟩]
    else if rev target then
      [⟨ErrorCode.ALREADY_REVERSED, "Entry " ++ intStr target ++ " gia stornata"⟩]
    else []
  else []

/-- Embeds `validate` specialised to pure repositories. -/
def validateP (entry : EntryDTO) (acc : String → Bool) (openBy : String → Bool)
    (exi : Int → Bool) (rev : Int → Bool) : List LedgerError :=
  validate_balanced entry ++ validate_no_negative entry ++
  accountsErrsP acc entry.lines ++ periodErrsP openBy entry ++
  reversalErrsP exi rev entry ++ validate_vat_consistency entry

/-! ## Storage model (`db/db_manager.py` and the schema)

Note on message fidelity: Italian source messages containing apostrophes or
accented letters are transliterated (e.g. `gia` for the accented word), since
the claims under study never depend on those characters. -/

/-- A row of `entries` (as inserted by `PostingEngine.post`; the trailing
`document_type` placeholder is always NULL and is omitted). -/
structure EntryRow where
  id : Nat
  date : String
  year : String
  protocol : String
  protocol_series : String
  protocol_no : Nat
  document : Option String
  document_date : Option String
  party : Option String
  description : String
  created_by : String
  reversal_of : Option Int
  client_reference_id : Option String
  taxable_amount : Option Int
  vat_rate : Option Int
  vat_amount : Option Int
deriving DecidableEq, Repr

/-- A row of `entry_lines`. -/
structure LineRow where
  entry_id : Nat
  account_code : String
  dare_cents : Int
  avere_cents : Int
deriving DecidableEq, Repr

/-- A row of `entry_reversals`. -/
structure ReversalRow where
  entry_id : Nat
  reversal_of : Int
deriving DecidableEq, Repr

/-- A row of `audit_log`.  The payload is stored as its canonical JSON text;
the model keeps the structured value (the canonical dump is injective on
dict values, and `json.loads` inverts it). -/
structure AuditRow where
  id : Nat
  entry_id : Option Int
  action : String
  user_id : String
  payload : JVal
  prev_hash : Option String
  curr_hash : String

/-- A row of `idempotence`. -/
structure IdemRow where
  key : String
  payload_hash : String
  entry_id : Nat
  protocol : String
deriving DecidableEq, Repr

/-- A row of `periods`. -/
structure PeriodRow where
  year : String
  month : Option String
  start_date : String
  end_date : String
  status : String
deriving DecidableEq, Repr

/-- The database: the tables touched by the code under study, in rowid
order, plus the next AUTOINCREMENT ids. -/
structure DBState where
  accounts : List String
  entries : List EntryRow
  entry_lines : List LineRow
  entry_reversals : List ReversalRow
  audit_log : List AuditRow
  idempotence : List IdemRow
  protocol_counters : List (String × String × Nat)
  periods : List PeriodRow
  nextEntryId : Nat
  nextAuditId : Nat

/-- The single cached sqlite connection of `DBManager` (opened with
`isolation_level=None`).  `committed` is the durable state; `current` is
what cursors of this connection observe.  `txnBegun` counts executed
`BEGIN IMMEDIATE` statements, so that "no transaction was opened" is an
observable fact. -/
structure Conn where
  committed : DBState
  current : DBState
  txnBegun : Nat

/-- Embeds `conn.commit()`. -/
def Conn.commit (c : Conn) : Conn := { c with committed := c.current }

/-- Embeds `conn.rollback()`. -/
def Conn.rollback (c : Conn) : Conn := { c with current := c.committed }

/-- Embeds `DBManager.transaction()`: `BEGIN IMMEDIATE` (whose retry loop, once
exhausted or on a non-busy error, re-raises without running the body),
then the body; `conn.commit()` on clean exit, `conn.rollback()` then
re-raise on an exception.  The body threads the connection so that writes
performed before a failure stay pending on `current` until the rollback. -/
def txRun (beginFail : Option PyExn)
    (body : Conn → (Except PyExn EntryResult) × Conn) (c : Conn) :
    (Except PyExn EntryResult) × Conn :=
  match beginFail with
  | some e => (Except.error e, c)
  | none =>
    let c1 : Conn := { c with txnBegun := c.txnBegun + 1 }
    match body c1 with
    | (Except.ok r, c2) => (Except.ok r, c2.commit)
    | (Except.error e, c2) => (Except.error e, c2.rollback)

/-! ## `services/audit_service.py` -/

/-- Rows of `audit_log` for one `entry_id` in ascending id order (the
model appends rows with increasing ids, so list order is id order). -/
def rowsFor (eid : Int) (log : List AuditRow) : List AuditRow :=
  log.filter (fun r => r.entry_id == some eid)

/-- Embeds `AuditService.log_action`, given the hash function `H` (SHA-256 of the
canonical JSON dump) and the timestamp the service attaches.  The previous
hash is looked up only when `entry_id` is truthy (`if entry_id:`), and only
kept when the found `curr_hash` is itself truthy
(`if row and row["curr_hash"]:`).  The method commits on the shared
connection: everything pending on `current` becomes durable. -/
def log_action (H : JVal → String) (action user_id : String) (payload : JVal)
    (entry_id : Option Int) (ts : String) (c : Conn) : Conn :=
  let payload' := withTimestamp payload ts
  let curr_hash := H payload'
  let prev_hash : Option String :=
    if intTruthy entry_id then
      match (rowsFor (entry_id.getD 0) c.current.audit_log).getLast? with
      | some row => if row.curr_hash ≠ "" then some row.curr_hash else none
      | none => none
    else none
  let row : AuditRow :=
    { id := c.current.nextAuditId, entry_id := entry_id, action := action,
      user_id := user_id, payload := payload', prev_hash := prev_hash,
      curr_hash := curr_hash }
  let cur' := { c.current with
    audit_log := c.current.audit_log ++ [row],
    nextAuditId := c.current.nextAuditId + 1 }
  Conn.commit { c with current := cur' }

/-- The checking loop of `AuditService.verify_chain`: recompute each row's
hash from its stored payload and compare the links. -/
def chainCheck (H : JVal → String) : Option String → List AuditRow → Bool
  | _, [] => true
  | prev, r :: rs =>
    if H r.payload ≠ r.curr_hash then false
    else if r.prev_hash ≠ prev then false
    else chainCheck H (some r.curr_hash) rs

/-- Embeds `AuditService.verify_chain`. -/
def verify_chain (H : JVal → String) (eid : Int) (db : DBState) : Bool :=
  chainCheck H none (rowsFor eid db.audit_log)

/-! ## `core/posting_engine.py::PostingEngine.post` -/

/-- Injected storage failures: which statement of a `post` call raises.
`none` everywhere is the failure-free run. -/
structure FailPlan where
  beginFail : Option PyExn := none
  idemSelectFail : Option PyExn := none
  counterFail : Option PyExn := none
  entryFail : Option PyExn := none
  linesFail : Option PyExn := none
  reversalFail : Option PyExn := none
  auditFail : Option PyExn := none
  idemInsertFail : Option PyExn := none
deriving DecidableEq, Repr

/-- The failure-free plan. -/
def noFail : FailPlan := {}

/-- The stored counter for `(year, series)` (`0` when the row is absent,
matching the `INSERT OR IGNORE ... 0` upsert). -/
def counterOf (db : DBState) (year series : String) : Nat :=
  match db.protocol_counters.find? (fun t => t.1 == year && t.2.1 == series) with
  | some t => t.2.2
  | none => 0

/-- Embeds `UPDATE protocol_counters SET counter = counter + 1` after the upsert. -/
def updCounters : List (String × String × Nat) → String → String →
    List (String × String × Nat)
  | [], y, s => [(y, s, 1)]
  | (y', s', c) :: rest, y, s =>
    if y' = y ∧ s' = s then (y, s, c + 1) :: rest
    else (y', s', c) :: updCounters rest y s

/-- Embeds `SELECT payload_hash, entry_id, protocol FROM idempotence WHERE key = ?`
(the key column is unique; first match). -/
def findIdem (rows : List IdemRow) (k : String) : Option IdemRow :=
  rows.find? (fun r => r.key == k)

/-- A failure `EntryResult` built from validation errors
(`errors=[e.message ...]`, `error_details=errs`). -/
def mkFailure (errs : List LedgerError) : EntryResult :=
  { success := false, errors := errs.map (·.message), error_details := errs }

/-- The success `EntryResult` of `post`. -/
def okResult (entry_id : Nat) (protocol : String) : EntryResult :=
  { success := true, entry_id := some entry_id, protocol := some protocol }

/-- The `IDEMPOTENCE_CONFLICT` failure returned on a same-key,
different-hash replay. -/
def conflictResult (k : String) : EntryResult :=
  { success := false,
    errors := ["Idempotence conflict for key " ++ k],
    error_details :=
      [⟨ErrorCode.IDEMPOTENCE_CONFLICT, "Key " ++ k ++ " payload mismatch"⟩] }

/-- The `except Exception` handler at the engine boundary: format the
message as `f"{type(e).__name__}: {e}"` and classify. -/
def dbErrorResult (e : PyExn) : EntryResult :=
  let msg := e.name ++ ": " ++ e.text
  let code := if hasSub msg "Idempotence conflict" then
    ErrorCode.IDEMPOTENCE_CONFLICT else ErrorCode.DB_ERROR
  { success := false, errors := [msg], error_details := [⟨code, msg⟩] }

/-- Steps 4–9 of `post` (protocol allocation through the idempotence
record), reached when there is no early idempotence return.  The VAT
columns store `float(q2(x))`, modelled by the exact cents value. -/
def postAlloc (H : JVal → String) (entry : EntryDTO) (user_id : String)
    (year series : String) (idempotence_key : Option String) (ts : String)
    (plan : FailPlan) (c : Conn) : (Except PyExn EntryResult) × Conn :=
  match plan.counterFail with
  | some e => (Except.error e, c)
  | none =>
  let protocol_no := counterOf c.current year series + 1
  let cur1 := { c.current with
    protocol_counters := updCounters c.current.protocol_counters year series }
  let protocol_str := year ++ "/" ++ series ++ "/" ++ pad6 protocol_no
  match plan.entryFail with
  | some e => (Except.error e, { c with current := cur1 })
  | none =>
  let entry_id := cur1.nextEntryId
  let row : EntryRow :=
    { id := entry_id, date := entry.date, year := year,
      protocol := protocol_str, protocol_series := series,
      protocol_no := protocol_no, document := entry.documento,
      document_date := entry.document_date, party := entry.cliente_fornitore,
      description := entry.descrizione, created_by := user_id,
      reversal_of := entry.reversal_of,
      client_reference_id := pyOrOpt entry.client_reference_id idempotence_key,
      taxable_amount := entry.taxable_amount.map q2c,
      vat_rate := entry.vat_rate.map q2c,
      vat_amount := entry.vat_amount.map q2c }
  let cur2 := { cur1 with
    entries := cur1.entries ++ [row], nextEntryId := entry_id + 1 }
  match plan.linesFail with
  | some e => (Except.error e, { c with current := cur2 })
  | none =>
  let cur3 := { cur2 with
    entry_lines := cur2.entry_lines ++ entry.lines.map (fun l =>
      ⟨entry_id, l.account_id, cents l.dare, cents l.avere⟩) }
  match (if intTruthy entry.reversal_of then plan.reversalFail else none) with
  | some e => (Except.error e, { c with current := cur3 })
  | none =>
  let cur4 := if intTruthy entry.reversal_of then
      { cur3 with entry_reversals :=
        cur3.entry_reversals ++ [⟨entry_id, entry.reversal_of.getD 0⟩] }
    else cur3
  match plan.auditFail with
  | some e => (Except.error e, { c with current := cur4 })
  | none =>
  let c5 := log_action H "POST" user_id
    (canonical_payload entry user_id (some protocol_str))
    (some (entry_id : Int)) ts { c with current := cur4 }
  if strTruthy idempotence_key then
    match plan.idemInsertFail with
    | some e => (Except.error e, c5)
    | none =>
      let c6 := { c5 with current := { c5.current with
        idempotence := c5.current.idempotence ++
          [⟨idempotence_key.getD "", H (idempotence_content entry user_id),
            entry_id, protocol_str⟩] } }
      (Except.ok (okResult entry_id protocol_str), c6)
  else (Except.ok (okResult entry_id protocol_str), c5)

/-- The transaction body of `post`: series/year derivation, idempotence
pre-check with its two early returns, then `postAlloc`. -/
def postBody (H : JVal → String) (entry : EntryDTO) (user_id : String)
    (protocol_series idempotence_key : Option String) (ts : String)
    (plan : FailPlan) (c : Conn) : (Except PyExn EntryResult) × Conn :=
  let year := strTake entry.date 4
  let series := seriesOf protocol_series entry.protocol_series
  if strTruthy idempotence_key then
    match plan.idemSelectFail with
    | some e => (Except.error e, c)
    | none =>
      let content_hash := H (idempotence_content entry user_id)
      match findIdem c.current.idempotence (idempotence_key.getD "") with
      | some existing =>
        if existing.payload_hash = content_hash then
          (Except.ok (okResult existing.entry_id existing.protocol), c)
        else
          (Except.ok (conflictResult (idempotence_key.getD "")), c)
      | none => postAlloc H entry user_id year series idempotence_key ts plan c
  else postAlloc H entry user_id year series idempotence_key ts plan c

/-- Embeds `PostingEngine.post`.  Validation runs first, *outside* the `try`
block: a repository read that raises propagates to the caller.  Inside the
`try`, the transaction is opened and any exception is normalised to a
failure result by `dbErrorResult`. -/
def post (H : JVal → String) (entry : EntryDTO) (user_id : String)
    (repos : Repos) (protocol_series idempotence_key : Option String)
    (ts : String) (plan : FailPlan) (c : Conn) :
    Except PyExn (EntryResult × Conn) := do
  let errs ← validate entry repos
  if errs.isEmpty then
    match txRun plan.beginFail
        (postBody H entry user_id protocol_series idempotence_key ts plan) c with
    | (Except.ok r, c') => pure (r, c')
    | (Except.error e, c') => pure (dbErrorResult e, c')
  else
    pure (mkFailure errs, c)

/-! ## `kernel/validator_adapter.py` -/

/-- Embeds `AccountsRepoDB.exists`: `SELECT 1 FROM accounts WHERE code = ?`. -/
def accountExistsDB (db : DBState) (code : String) : Bool :=
  db.accounts.contains code

/-- Embeds `PeriodsRepoDB.is_open_by_date`: an entry date is open iff *no* period
with `status='closed'` covers it (`date(?) BETWEEN start_date AND end_date`
compares ISO date strings textually).  A `'finalized'` match does not make
the query row-match: only the literal `'closed'` status counts. -/
def is_open_by_date (db : DBState) (d : String) : Bool :=
  !(db.periods.any (fun p =>
    p.status == "closed" && sLe p.start_date d && sLe d p.end_date))

/-- Embeds `EntriesRepoDB.exists`: `SELECT 1 FROM entries WHERE id = ?`. -/
def entryExistsDB (db : DBState) (eid : Int) : Bool :=
  db.entries.any (fun r => (r.id : Int) == eid)

/-- Embeds `EntriesRepoDB.has_reversal_for`: `SELECT 1 FROM entries WHERE
reversal_of = ?`. -/
def hasReversalForDB (db : DBState) (orig : Int) : Bool :=
  db.entries.any (fun r => r.reversal_of == some orig)

/-- The three repositories backed by a database snapshot (their reads do
not raise in the model). -/
def reposOfDB (db : DBState) : Repos :=
  pureRepos (accountExistsDB db) (is_open_by_date db)
    (entryExistsDB db) (hasReversalForDB db)

/-! ## `services/closures_service.py::ClosuresService.finalize_year` -/

/-- Embeds `ClosuresService.finalize_year`.  When some monthly row of the year is
not `'closed'`, the code builds `LedgerError(ErrorCode.PERIOD_OPEN, ...)`;
`ErrorCode` has no such member, so evaluating the attribute raises
`AttributeError` instead of returning the intended failure result.
Otherwise the annual (month-NULL) row is set to `'finalized'` in a
transaction, a `FINALIZE_YEAR` audit row is appended (with `entry_id=None`)
and a bare success result is returned; no entry is posted. -/
def finalize_year (H : JVal → String) (year user_id descrizione ts : String)
    (c : Conn) : Except PyExn (EntryResult × Conn) :=
  let rows := c.current.periods.filter (fun p => p.year == year && p.month ≠ none)
  if rows.any (fun p => p.status ≠ "closed") then
    Except.error ⟨"AttributeError", "PERIOD_OPEN"⟩
  else
    let cur1 := { c.current with
      periods := c.current.periods.map (fun p =>
        if p.year == year && p.month == none then { p with status := "finalized" }
        else p) }
    let c1 := Conn.commit { c with current := cur1, txnBegun := c.txnBegun + 1 }
    let c2 := log_action H "FINALIZE_YEAR" user_id
      (JVal.jobj [("year", JVal.jstr year),
                  ("descrizione", JVal.jstr descrizione)]) none ts c1
    Except.ok ({ success := true }, c2)

/-! ## Observation helpers (projections used to state results) -/

/-- The exception a call raised, if it raised. -/
def exceptErr {α : Type} : Except PyExn α → Option PyExn
  | Except.error e => some e
  | Except.ok _ => none

/-- The `(success, entry_id, protocol)` triple of a returned result. -/
def resView : Except PyExn (EntryResult × Conn) →
    Option (Bool × Option Nat × Option String)
  | Except.ok (r, _) => some (r.success, r.entry_id, r.protocol)
  | Except.error _ => none

/-- The error kinds of a returned result. -/
def resCodes : Except PyExn (EntryResult × Conn) → Option (List ErrorCode)
  | Except.ok (r, _) => some (r.error_details.map (·.code))
  | Except.error _ => none

/-- Durable table sizes of the connection after a call: committed entry
rows, committed idempotence rows, committed audit rows. -/
def committedSizes : Except PyExn (EntryResult × Conn) →
    Option (Nat × Nat × Nat)
  | Except.ok (_, c) =>
    some (c.committed.entries.length, c.committed.idempotence.length,
          c.committed.audit_log.length)
  | Except.error _ => none

/-- The error codes in a list of validation errors. -/
def errCodes (errs : List LedgerError) : List ErrorCode := errs.map (·.code)

/-! ## Concrete fixtures for witnesses and counterexamples -/

/-- A concrete stand-in for SHA-256 in closed evaluations (theorems that
quantify over the hash function are instantiated with it). -/
def H0 : JVal → String := fun _ => "h"

/-- An empty database seeded with the chart codes the tests rely on and a
single open period for 2025. -/
def db0 : DBState :=
  { accounts := ["1000", "2000", "3000", "4000"],
    entries := [], entry_lines := [], entry_reversals := [],
    audit_log := [], idempotence := [], protocol_counters := [],
    periods := [⟨"2025", none, "2025-01-01", "2025-12-31", "open"⟩],
    nextEntryId := 1, nextAuditId := 1 }

/-- A quiescent connection on a database (nothing pending). -/
def connQ (db : DBState) : Conn := ⟨db, db, 0⟩

/-- Repositories where every account exists, every date is open and no
entry exists (enough for non-reversal entries). -/
def reposAll : Repos :=
  pureRepos (fun _ => true) (fun _ => true) (fun _ => false) (fun _ => false)

/-- Repositories whose account read raises, as the DB-backed
`AccountsRepoDB.exists` does when sqlite reports the database locked. -/
def reposRaising : Repos :=
  { accountExists := fun _ => Except.error ⟨"OperationalError", "database is locked"⟩,
    isOpenByDate := fun d => Except.ok (is_open_by_date db0 d),
    entryExists := fun _ => Except.ok false,
    hasReversalFor := fun _ => Except.ok false }

/-- A balanced, valid two-line entry (Dr 1000 / Cr 2000, one euro). -/
def entryBal : EntryDTO :=
  { date := "2025-01-15", descrizione := "Vendita",
    lines := [{ account_id := "1000", dare := ⟨1, 0⟩ },
              { account_id := "2000", avere := ⟨1, 0⟩ }] }

/-- An entry violating two rules: unbalanced totals and an empty line. -/
def entryBad : EntryDTO :=
  { date := "2025-01-15", descrizione := "Errata",
    lines := [{ account_id := "1000", dare := ⟨5, 0⟩ },
              { account_id := "2000" }] }

/-- A database whose only period covering 2025-05-10 is `'finalized'`. -/
def dbFinalized : DBState :=
  { db0 with periods := [⟨"2025", none, "2025-01-01", "2025-12-31", "finalized"⟩] }

/-- A database with a closed period covering April 2025. -/
def dbClosedApril : DBState :=
  { db0 with periods := [⟨"2025", some "04", "2025-04-01", "2025-04-30", "closed"⟩] }

/-- An entry dated inside the finalized period of `dbFinalized`. -/
def entryMay : EntryDTO :=
  { date := "2025-05-10", descrizione := "Maggio",
    lines := [{ account_id := "1000", dare := ⟨1, 0⟩ },
              { account_id := "2000", avere := ⟨1, 0⟩ }] }

/-- The failure plan whose only injected failure is the step-9
`INSERT INTO idempotence` raising (e.g. a UNIQUE-constraint error). -/
def planIdemFail : FailPlan :=
  { idemInsertFail := some ⟨"IntegrityError", "UNIQUE constraint failed: idempotence.key"⟩ }

/-- A connection whose year 2025 has one monthly period row still open. -/
def connOpenJan : Conn :=
  connQ { db0 with periods := [⟨"2025", some "01", "2025-01-01", "2025-01-31", "open"⟩] }

/-- The number of validation rules an entry violates, with pure
repositories: one per rule whose error list is nonempty. -/
def countViolated (entry : EntryDTO) (acc openBy : String → Bool)
    (exi rev : Int → Bool) : Nat :=
  (if validate_balanced entry = [] then 0 else 1) +
  (if validate_no_negative entry = [] then 0 else 1) +
  (if accountsErrsP acc entry.lines = [] then 0 else 1) +
  (if periodErrsP openBy entry = [] then 0 else 1) +
  (if reversalErrsP exi rev entry = [] then 0 else 1) +
  (if validate_vat_consistency entry = [] then 0 else 1)

/-- One `AuditService.log_action` call: its arguments plus the timestamp
the service draws from the clock. -/
structure LogCall where
  action : String
  user_id : String
  payload : JVal
  entry_id : Option Int
  ts : String

/-- Run a sequence of `log_action` calls. -/
def applyCalls (H : JVal → String) (calls : List LogCall) (c : Conn) : Conn :=
  calls.foldl (fun c k =>
    log_action H k.action k.user_id k.payload k.entry_id k.ts c) c

/-- The running `prev` value after `chainCheck` consumes a row list. -/
def runPrev : Option String → List AuditRow → Option String
  | prev0, [] => prev0
  | _, r :: rs => runPrev (some r.curr_hash) rs

/-- A `log_action` call for entry id 0 (Python treats `0` as falsy in
`if entry_id:`). -/
def callZero : LogCall :=
  ⟨"TEST", "u1", JVal.jobj [("k", JVal.jstr "v")], some 0, "t1"⟩

/-- Two `post` calls with the same idempotence key (the hyperproperty run
of claim C10): the observables of both results plus the final table sizes. -/
def postTwice (H : JVal → String) (entry : EntryDTO) (user_id : String)
    (repos : Repos) (s1 s2 : Option String) (k : String) (ts1 ts2 : String)
    (c : Conn) :
    Option ((Bool × Option Nat × Option String) ×
            (Bool × Option Nat × Option String) × (Nat × Nat)) :=
  match post H entry user_id repos s1 (some k) ts1 noFail c with
  | Except.ok (r1, c1) =>
    match post H entry user_id repos s2 (some k) ts2 noFail c1 with
    | Except.ok (r2, c2) =>
      some ((r1.success, r1.entry_id, r1.protocol),
            (r2.success, r2.entry_id, r2.protocol),
            (c2.current.entries.length, c2.current.idempotence.length))
    | Except.error _ => none
  | Except.error _ => none

/-- An entry dated inside the closed April period of `dbClosedApril`. -/
def entryApril : EntryDTO :=
  { date := "2025-04-15", descrizione := "Aprile",
    lines := [{ account_id := "1000", dare := ⟨1, 0⟩ },
              { account_id := "2000", avere := ⟨1, 0⟩ }] }

/-- A database holding a stored idempotence row for `entryApril` (posted
while April was still open) and the now-closed April period. -/
def dbReplay : DBState :=
  { dbClosedApril with idempotence :=
      [⟨"K9", H0 (idempotence_content entryApril "u1"), 3, "2025/GEN/000003"⟩] }

/-- A database holding a stored idempotence row whose hash matches
`entryBal` (for the C4 witness). -/
def dbStored : DBState :=
  { db0 with idempotence :=
      [⟨"K1", H0 (idempotence_content entryBal "u1"), 7, "2025/GEN/000007"⟩] }

/-- Decidable equality of `Except` values (used to evaluate concrete runs
of the fallible embeddings). -/
instance {α β : Type} [DecidableEq α] [DecidableEq β] : DecidableEq (Except α β) :=
  fun x y =>
  match x, y with
  | Except.ok a, Except.ok b =>
    if h : a = b then isTrue (by rw [h])
    else isFalse (fun he => h (Except.ok.inj he))
  | Except.error a, Except.error b =>
    if h : a = b then isTrue (by rw [h])
    else isFalse (fun he => h (Except.error.inj he))
  | Except.ok _, Except.error _ => isFalse (fun he => Except.noConfusion he)
  | Except.error _, Except.ok _ => isFalse (fun he => Except.noConfusion he)

/-! # Theorems -/

theorem accountsErrs_pure (acc : String → Bool) (ls : List LineDTO) :
    accountsErrs (fun s => Except.ok (acc s)) ls = Except.ok (accountsErrsP acc ls) := by
  induction ls with
  | nil => rfl
  | cons l ls ih =>
    simp only [accountsErrs, accountsErrsP, List.foldr_cons, ih]
    rfl

theorem validate_accounts_pure (entry : EntryDTO) (acc : String → Bool)
    (openBy : String → Bool) (exi rev : Int → Bool) :
    validate_accounts_exist entry (pureRepos acc openBy exi rev) =
      Except.ok (accountsErrsP acc entry.lines) := by
  show accountsErrs _ _ = _
  exact accountsErrs_pure acc entry.lines

theorem validate_period_pure (entry : EntryDTO) (acc : String → Bool)
    (openBy : String → Bool) (exi rev : Int → Bool) :
    validate_period_open entry (pureRepos acc openBy exi rev) =
      Except.ok (periodErrsP openBy entry) := by
  unfold validate_period_open periodErrsP pureRepos
  by_cases h : dateShape entry.date
  · by_cases ho : openBy entry.date <;> simp [h, ho]
  · simp [h]

theorem validate_reversal_pure (entry : EntryDTO) (acc : String → Bool)
    (openBy : String → Bool) (exi rev : Int → Bool) :
    validate_not_already_reversed entry (pureRepos acc openBy exi rev) =
      Except.ok (reversalErrsP exi rev entry) := by
  unfold validate_not_already_reversed reversalErrsP pureRepos
  by_cases ht : intTruthy entry.reversal_of
  · by_cases he : exi (entry.reversal_of.getD 0)
    · by_cases hr : rev (entry.reversal_of.getD 0) <;> simp [ht, he, hr] <;> rfl
    · simp [ht, he]
      rfl
  · simp [ht]

theorem validate_pureRepos (entry : EntryDTO) (acc : String → Bool)
    (openBy : String → Bool) (exi rev : Int → Bool) :
    validate entry (pureRepos acc openBy exi rev) =
      Except.ok (validateP entry acc openBy exi rev) := by
  unfold validate validateP
  rw [validate_accounts_pure, validate_period_pure, validate_reversal_pure]
  rfl

theorem post_validation_failure (H : JVal → String) (entry : EntryDTO)
    (user_id : String) (repos : Repos) (ser key : Option String) (ts : String)
    (plan : FailPlan) (c : Conn) (errs : List LedgerError)
    (hv : validate entry repos = Except.ok errs) (hne : errs ≠ []) :
    post H entry user_id repos ser key ts plan c = Except.ok (mkFailure errs, c) := by
  have hie : errs.isEmpty = false := by
    cases errs with
    | nil => exact absurd rfl hne
    | cons a as => rfl
  unfold post
  rw [hv]
  show (if errs.isEmpty then _ else _ : Except PyExn (EntryResult × Conn)) = _
  rw [hie]
  rfl

/-- C5: `finalize_year` with a non-closed monthly row raises
`AttributeError` (the enum has no `PERIOD_OPEN` member) instead of
returning the failure result the specification promises. -/
theorem finalize_year_attribute_error :
    exceptErr (finalize_year H0 "2025" "u1" "Finalizzazione anno" "t0" connOpenJan) =
      some ⟨"AttributeError", "PERIOD_OPEN"⟩ := by decide

/-- C1: a storage failure at the step-9 `INSERT INTO idempotence` is *not*
rolled back as a whole: `log_action`'s `conn.commit()` on the shared
connection has already committed the entry row, the lines and the audit
row, so the failed `post` leaves a durably committed partial posting
(1 entry row, 1 audit row, 0 idempotence rows) while returning a
`DB_ERROR` failure result. -/
theorem post_partial_commit_on_idem_failure :
    resView (post H0 entryBal "u1" reposAll none (some "K1") "t0" planIdemFail (connQ db0)) =
      some (false, none, none) ∧
    resCodes (post H0 entryBal "u1" reposAll none (some "K1") "t0" planIdemFail (connQ db0)) =
      some [ErrorCode.DB_ERROR] ∧
    committedSizes (post H0 entryBal "u1" reposAll none (some "K1") "t0" planIdemFail (connQ db0)) =
      some (1, 0, 1) := by decide

/-- C2 (counterexample): validation runs outside the `try`, so a storage
failure during a repository read of `validate` escapes `post` as an
exception instead of being normalised to a `DB_ERROR` result. -/
theorem post_raises_during_validation :
    exceptErr (post H0 entryBal "u1" reposRaising none none "t0" noFail (connQ db0)) =
      some ⟨"OperationalError", "database is locked"⟩ := by decide

/-- C3 (counterexample): a date covered only by a `'finalized'` period is
treated as open — `validate` emits no `PERIOD_CLOSED` for it, because
`PeriodsRepoDB.is_open_by_date` matches only `status='closed'`. -/
theorem finalized_period_not_blocking :
    dateShape entryMay.date = true ∧
    (dbFinalized.periods.any (fun p =>
      (p.status == "closed" || p.status == "finalized") &&
      sLe p.start_date entryMay.date && sLe entryMay.date p.end_date)) = true ∧
    ErrorCode.PERIOD_CLOSED ∉ errCodes (validateP entryMay
      (accountExistsDB dbFinalized) (is_open_by_date dbFinalized)
      (entryExistsDB dbFinalized) (hasReversalForDB dbFinalized)) := by decide

/-- C3 (amended): with a well-shaped date, a date covered by a `'closed'`
period yields `PERIOD_CLOSED`, and the date counts as open exactly when no
`'closed'` period covers it (a `'finalized'` period alone does not block). -/
theorem period_closed_detection (db : DBState) (entry : EntryDTO)
    (hd : dateShape entry.date = true) :
    (validate entry (reposOfDB db) = Except.ok (validateP entry
      (accountExistsDB db) (is_open_by_date db) (entryExistsDB db)
      (hasReversalForDB db))) ∧
    ((∃ p ∈ db.periods, p.status = "closed" ∧ sLe p.start_date entry.date = true ∧
        sLe entry.date p.end_date = true) →
      ErrorCode.PERIOD_CLOSED ∈ errCodes (validateP entry
        (accountExistsDB db) (is_open_by_date db) (entryExistsDB db)
        (hasReversalForDB db))) ∧
    (is_open_by_date db entry.date = true ↔
      ¬ ∃ p ∈ db.periods, p.status = "closed" ∧ sLe p.start_date entry.date = true ∧
        sLe entry.date p.end_date = true) := by
  have hiff : is_open_by_date db entry.date = true ↔
      ¬ ∃ p ∈ db.periods, p.status = "closed" ∧ sLe p.start_date entry.date = true ∧
        sLe entry.date p.end_date = true := by
    simp [is_open_by_date, List.any_eq_true, Bool.and_eq_true]
  refine ⟨validate_pureRepos entry _ _ _ _, ?_, hiff⟩
  intro hex
  have hopen : is_open_by_date db entry.date = false := by
    cases h : is_open_by_date db entry.date with
    | false => rfl
    | true => exact absurd hex (hiff.mp h)
  have hpe : periodErrsP (is_open_by_date db) entry =
      [⟨ErrorCode.PERIOD_CLOSED, "Periodo chiuso per data " ++ entry.date⟩] := by
    simp [periodErrsP, hd, hopen]
  simp [validateP, errCodes, hpe]

/-- C3 witness instance: in `dbClosedApril`, an April-dated entry is
flagged `PERIOD_CLOSED` and April dates are not open. -/
theorem period_closed_detection_witness :
    dateShape entryApril.date = true ∧
    ((validate entryApril (reposOfDB dbClosedApril) = Except.ok (validateP entryApril
      (accountExistsDB dbClosedApril) (is_open_by_date dbClosedApril)
      (entryExistsDB dbClosedApril) (hasReversalForDB dbClosedApril))) ∧
    ((∃ p ∈ dbClosedApril.periods, p.status = "closed" ∧
        sLe p.start_date entryApril.date = true ∧
        sLe entryApril.date p.end_date = true) →
      ErrorCode.PERIOD_CLOSED ∈ errCodes (validateP entryApril
        (accountExistsDB dbClosedApril) (is_open_by_date dbClosedApril)
        (entryExistsDB dbClosedApril) (hasReversalForDB dbClosedApril))) ∧
    (is_open_by_date dbClosedApril entryApril.date = true ↔
      ¬ ∃ p ∈ dbClosedApril.periods, p.status = "closed" ∧
        sLe p.start_date entryApril.date = true ∧
        sLe entryApril.date p.end_date = true)) :=
  ⟨by decide, period_closed_detection dbClosedApril entryApril (by decide)⟩

theorem nonempty_one_le (l : List LedgerError) : (if l = [] then 0 else 1) ≤ l.length := by
  split
  · exact Nat.zero_le _
  · exact List.length_pos.mpr (by assumption)

/-- C7: all rules run and contribute — an entry violating `K` rules yields
at least `K` structured errors — and a `post` with a failing validation
returns exactly that failure with the connection untouched (no `BEGIN`,
no state change). -/
theorem validation_exhaustive_no_txn (H : JVal → String) (entry : EntryDTO)
    (user_id : String) (acc openBy : String → Bool) (exi rev : Int → Bool)
    (ser key : Option String) (ts : String) (plan : FailPlan) (c : Conn)
    (hK : 0 < countViolated entry acc openBy exi rev) :
    countViolated entry acc openBy exi rev ≤
      (validateP entry acc openBy exi rev).length ∧
    post H entry user_id (pureRepos acc openBy exi rev) ser key ts plan c =
      Except.ok (mkFailure (validateP entry acc openBy exi rev), c) := by
  have b1 := nonempty_one_le (validate_balanced entry)
  have b2 := nonempty_one_le (validate_no_negative entry)
  have b3 := nonempty_one_le (accountsErrsP acc entry.lines)
  have b4 := nonempty_one_le (periodErrsP openBy entry)
  have b5 := nonempty_one_le (reversalErrsP exi rev entry)
  have b6 := nonempty_one_le (validate_vat_consistency entry)
  have hlen : countViolated entry acc openBy exi rev ≤
      (validateP entry acc openBy exi rev).length := by
    unfold countViolated validateP
    simp only [List.length_append]
    omega
  refine ⟨hlen, ?_⟩
  have hne : validateP entry acc openBy exi rev ≠ [] :=
    List.length_pos.mp (lt_of_lt_of_le hK hlen)
  exact post_validation_failure H entry user_id _ ser key ts plan c _
    (validate_pureRepos entry acc openBy exi rev) hne

/-- C7 witness instance: `entryBad` violates two rules (unbalanced totals
and an empty line) and its `post` returns both errors without touching the
connection. -/
theorem validation_exhaustive_no_txn_witness :
    0 < countViolated entryBad (fun _ => true) (fun _ => true)
      (fun _ => false) (fun _ => false) ∧
    (countViolated entryBad (fun _ => true) (fun _ => true)
      (fun _ => false) (fun _ => false) ≤
      (validateP entryBad (fun _ => true) (fun _ => true)
        (fun _ => false) (fun _ => false)).length ∧
    post H0 entryBad "u1" (pureRepos (fun _ => true) (fun _ => true)
        (fun _ => false) (fun _ => false)) none none "t0" noFail (connQ db0) =
      Except.ok (mkFailure (validateP entryBad (fun _ => true) (fun _ => true)
        (fun _ => false) (fun _ => false)), connQ db0)) :=
  ⟨by decide, validation_exhaustive_no_txn H0 entryBad "u1" _ _ _ _ none none
    "t0" noFail (connQ db0) (by decide)⟩

/-- C9: a repeated `post` runs the validator before the idempotence
lookup — when validation now fails, the call returns the validation
failure (and mutates nothing), even though a stored row with a matching
content hash exists for the key. -/
theorem replay_gated_by_validation (H : JVal → String) (entry : EntryDTO)
    (user_id : String) (repos : Repos) (ser : Option String) (k ts : String)
    (plan : FailPlan) (c : Conn) (errs : List LedgerError) (row : IdemRow)
    (hv : validate entry repos = Except.ok errs) (hne : errs ≠ [])
    (hk : k ≠ "") (hrow : findIdem c.current.idempotence k = some row)
    (hhash : row.payload_hash = H (idempotence_content entry user_id)) :
    post H entry user_id repos ser (some k) ts plan c =
      Except.ok (mkFailure errs, c) :=
  post_validation_failure H entry user_id repos ser (some k) ts plan c errs hv hne

/-- C9 witness instance: the entry was stored under key `"K9"` while April
was open; after April closes, the same `post` returns `PERIOD_CLOSED`
instead of the stored `(3, "2025/GEN/000003")`. -/
theorem replay_gated_by_validation_witness :
    validate entryApril (reposOfDB dbReplay) = Except.ok
      [⟨ErrorCode.PERIOD_CLOSED, "Periodo chiuso per data 2025-04-15"⟩] ∧
    findIdem (connQ dbReplay).current.idempotence "K9" = some
      ⟨"K9", H0 (idempotence_content entryApril "u1"), 3, "2025/GEN/000003"⟩ ∧
    post H0 entryApril "u1" (reposOfDB dbReplay) none (some "K9") "t0" noFail
        (connQ dbReplay) =
      Except.ok (mkFailure
        [⟨ErrorCode.PERIOD_CLOSED, "Periodo chiuso per data 2025-04-15"⟩],
        connQ dbReplay) :=
  ⟨by decide, by decide,
   replay_gated_by_validation H0 entryApril "u1" (reposOfDB dbReplay) none "K9"
     "t0" noFail (connQ dbReplay) _
     ⟨"K9", H0 (idempotence_content entryApril "u1"), 3, "2025/GEN/000003"⟩
     (by decide) (by decide) (by decide) (by decide) rfl⟩

theorem post_ok_tx (H : JVal → String) (entry : EntryDTO) (user_id : String)
    (repos : Repos) (ser key : Option String) (ts : String) (plan : FailPlan)
    (c : Conn) (hv : validate entry repos = Except.ok []) :
    post H entry user_id repos ser key ts plan c =
      match txRun plan.beginFail (postBody H entry user_id ser key ts plan) c with
      | (Except.ok r, c') => Except.ok (r, c')
      | (Except.error e, c') => Except.ok (dbErrorResult e, c') := by
  unfold post
  rw [hv]
  rfl

theorem post_replay_hit (H : JVal → String) (entry : EntryDTO)
    (user_id : String) (repos : Repos) (ser : Option String) (k ts : String)
    (plan : FailPlan) (c : Conn) (row : IdemRow)
    (hv : validate entry repos = Except.ok [])
    (hb : plan.beginFail = none) (hs : plan.idemSelectFail = none)
    (hk : k ≠ "") (hrow : findIdem c.current.idempotence k = some row)
    (heq : row.payload_hash = H (idempotence_content entry user_id)) :
    post H entry user_id repos ser (some k) ts plan c =
      Except.ok (okResult row.entry_id row.protocol,
        { c with committed := c.current, txnBegun := c.txnBegun + 1 }) := by
  rw [post_ok_tx H entry user_id repos ser (some k) ts plan c hv]
  simp [txRun, hb, postBody, strTruthy, hk, hs, hrow, heq, Conn.commit]

theorem post_replay_conflict (H : JVal → String) (entry : EntryDTO)
    (user_id : String) (repos : Repos) (ser : Option String) (k ts : String)
    (plan : FailPlan) (c : Conn) (row : IdemRow)
    (hv : validate entry repos = Except.ok [])
    (hb : plan.beginFail = none) (hs : plan.idemSelectFail = none)
    (hk : k ≠ "") (hrow : findIdem c.current.idempotence k = some row)
    (hne : row.payload_hash ≠ H (idempotence_content entry user_id)) :
    post H entry user_id repos ser (some k) ts plan c =
      Except.ok (conflictResult k,
        { c with committed := c.current, txnBegun := c.txnBegun + 1 }) := by
  rw [post_ok_tx H entry user_id repos ser (some k) ts plan c hv]
  simp [txRun, hb, postBody, strTruthy, hk, hs, hrow, hne, Conn.commit]

/-- C4: when the idempotence key already has a stored row and validation
passes, a matching content hash makes `post` return success with the
stored `(entry_id, protocol)` and a different hash makes it return a
single-kind `IDEMPOTENCE_CONFLICT` failure; in both cases the database is
untouched (the transaction commits empty: `committed` becomes the
unchanged `current`). -/
theorem idempotent_replay_and_conflict (H : JVal → String) (entry : EntryDTO)
    (user_id : String) (repos : Repos) (ser : Option String) (k ts : String)
    (plan : FailPlan) (c : Conn) (row : IdemRow)
    (hv : validate entry repos = Except.ok [])
    (hb : plan.beginFail = none) (hs : plan.idemSelectFail = none)
    (hk : k ≠ "") (hrow : findIdem c.current.idempotence k = some row) :
    (row.payload_hash = H (idempotence_content entry user_id) →
      post H entry user_id repos ser (some k) ts plan c =
        Except.ok (okResult row.entry_id row.protocol,
          { c with committed := c.current, txnBegun := c.txnBegun + 1 })) ∧
    (row.payload_hash ≠ H (idempotence_content entry user_id) →
      post H entry user_id repos ser (some k) ts plan c =
        Except.ok (conflictResult k,
          { c with committed := c.current, txnBegun := c.txnBegun + 1 })) :=
  ⟨fun heq => post_replay_hit H entry user_id repos ser k ts plan c row
      hv hb hs hk hrow heq,
   fun hne => post_replay_conflict H entry user_id repos ser k ts plan c row
      hv hb hs hk hrow hne⟩

/-- C4 witness instance: `dbStored` holds a row for key `"K1"`; the stored
hash matches `entryBal`, so a replay returns `(7, "2025/GEN/000007")`
without mutation, and a mismatching hash would yield the conflict. -/
theorem idempotent_replay_and_conflict_witness :
    validate entryBal reposAll = Except.ok [] ∧
    ((⟨"K1", H0 (idempotence_content entryBal "u1"), 7, "2025/GEN/000007"⟩ :
        IdemRow).payload_hash = H0 (idempotence_content entryBal "u1") →
      post H0 entryBal "u1" reposAll none (some "K1") "t0" noFail (connQ dbStored) =
        Except.ok (okResult 7 "2025/GEN/000007",
          { (connQ dbStored) with
            committed := (connQ dbStored).current,
            txnBegun := (connQ dbStored).txnBegun + 1 })) ∧
    ((⟨"K1", H0 (idempotence_content entryBal "u1"), 7, "2025/GEN/000007"⟩ :
        IdemRow).payload_hash ≠ H0 (idempotence_content entryBal "u1") →
      post H0 entryBal "u1" reposAll none (some "K1") "t0" noFail (connQ dbStored) =
        Except.ok (conflictResult "K1",
          { (connQ dbStored) with
            committed := (connQ dbStored).current,
            txnBegun := (connQ dbStored).txnBegun + 1 })) :=
  ⟨by decide,
   (idempotent_replay_and_conflict H0 entryBal "u1" reposAll none "K1" "t0"
      noFail (connQ dbStored)
      ⟨"K1", H0 (idempotence_content entryBal "u1"), 7, "2025/GEN/000007"⟩
      (by decide) rfl rfl (by decide) (by decide)).1,
   (idempotent_replay_and_conflict H0 entryBal "u1" reposAll none "K1" "t0"
      noFail (connQ dbStored)
      ⟨"K1", H0 (idempotence_content entryBal "u1"), 7, "2025/GEN/000007"⟩
      (by decide) rfl rfl (by decide) (by decide)).2⟩

/-- C8: a successful fresh allocation returns exactly
`"{year}/{SERIES}/{counter:06d}"`: `year` is the first four characters of
the entry date, `SERIES` is the uppercase of
`caller_series or entry.protocol_series or "GEN"`, and the counter is the
incremented per-`(year, series)` counter. -/
theorem protocol_format (H : JVal → String) (entry : EntryDTO)
    (user_id : String) (repos : Repos) (ser : Option String) (ts : String)
    (c : Conn) (hv : validate entry repos = Except.ok []) :
    resView (post H entry user_id repos ser none ts noFail c) =
      some (true, some c.current.nextEntryId,
        some (strTake entry.date 4 ++ "/" ++ seriesOf ser entry.protocol_series
          ++ "/" ++ pad6 (counterOf c.current (strTake entry.date 4)
            (seriesOf ser entry.protocol_series) + 1))) := by
  rw [post_ok_tx H entry user_id repos ser none ts noFail c hv]
  by_cases hrev : intTruthy entry.reversal_of <;>
    simp [txRun, noFail, postBody, strTruthy, postAlloc, hrev, Conn.commit,
      resView, okResult]

/-- C8 witness instance: posting `entryBal` with caller series `"ops"` on
the empty database allocates `"2025/OPS/000001"` for entry id 1. -/
theorem protocol_format_witness :
    validate entryBal reposAll = Except.ok [] ∧
    resView (post H0 entryBal "u1" reposAll (some "ops") none "t0" noFail (connQ db0)) =
      some (true, some (connQ db0).current.nextEntryId,
        some (strTake entryBal.date 4 ++ "/" ++
          seriesOf (some "ops") entryBal.protocol_series ++ "/" ++
          pad6 (counterOf (connQ db0).current (strTake entryBal.date 4)
            (seriesOf (some "ops") entryBal.protocol_series) + 1))) :=
  ⟨by decide, protocol_format H0 entryBal "u1" reposAll (some "ops") "t0"
    (connQ db0) (by decide)⟩

theorem findIdem_append_of_none (rows : List IdemRow) (k : String) (r : IdemRow)
    (h : findIdem rows k = none) (hk : r.key = k) :
    findIdem (rows ++ [r]) k = some r := by
  induction rows with
  | nil => simp [findIdem, hk]
  | cons a as ih =>
    unfold findIdem at h ⊢
    rw [List.cons_append, List.find?_cons] at *
    cases hak : (a.key == k) with
    | true => rw [hak] at h; exact absurd h (by simp)
    | false =>
      rw [hak] at h
      exact ih h

theorem post_fresh_success (H : JVal → String) (entry : EntryDTO)
    (user_id : String) (repos : Repos) (ser : Option String) (k ts : String)
    (c : Conn) (hv : validate entry repos = Except.ok []) (hk : k ≠ "")
    (hfresh : findIdem c.current.idempotence k = none) :
    ∃ c', post H entry user_id repos ser (some k) ts noFail c =
        Except.ok (okResult c.current.nextEntryId
          (strTake entry.date 4 ++ "/" ++ seriesOf ser entry.protocol_series
            ++ "/" ++ pad6 (counterOf c.current (strTake entry.date 4)
              (seriesOf ser entry.protocol_series) + 1)), c') ∧
      c'.current.idempotence = c.current.idempotence ++
        [⟨k, H (idempotence_content entry user_id), c.current.nextEntryId,
          strTake entry.date 4 ++ "/" ++ seriesOf ser entry.protocol_series
            ++ "/" ++ pad6 (counterOf c.current (strTake entry.date 4)
              (seriesOf ser entry.protocol_series) + 1)⟩] ∧
      c'.current.entries.length = c.current.entries.length + 1 := by
  rw [post_ok_tx H entry user_id repos ser (some k) ts noFail c hv]
  by_cases hrev : intTruthy entry.reversal_of <;>
    simp [txRun, noFail, postBody, strTruthy, hk, hfresh, postAlloc, hrev,
      log_action, Conn.commit]

/-- C10: the idempotence content hash is computed from the entry fields and
the user only — the caller-supplied protocol series is excluded — so two
`post` calls with the same key and entry but different series arguments
are a safe replay: the second returns the first call's
`(entry_id, protocol)` and inserts nothing. -/
theorem series_excluded_from_idem_hash (H : JVal → String) (entry : EntryDTO)
    (user_id : String) (repos : Repos) (s1 s2 : Option String) (k ts1 ts2 : String)
    (c : Conn) (hv : validate entry repos = Except.ok []) (hk : k ≠ "")
    (hfresh : findIdem c.current.idempotence k = none) :
    postTwice H entry user_id repos s1 s2 k ts1 ts2 c =
      some ((true, some c.current.nextEntryId,
          some (strTake entry.date 4 ++ "/" ++ seriesOf s1 entry.protocol_series
            ++ "/" ++ pad6 (counterOf c.current (strTake entry.date 4)
              (seriesOf s1 entry.protocol_series) + 1))),
        (true, some c.current.nextEntryId,
          some (strTake entry.date 4 ++ "/" ++ seriesOf s1 entry.protocol_series
            ++ "/" ++ pad6 (counterOf c.current (strTake entry.date 4)
              (seriesOf s1 entry.protocol_series) + 1))),
        (c.current.entries.length + 1, c.current.idempotence.length + 1)) := by
  obtain ⟨c1, h1, hidem, hlen⟩ :=
    post_fresh_success H entry user_id repos s1 k ts1 c hv hk hfresh
  have hrow : findIdem c1.current.idempotence k =
      some ⟨k, H (idempotence_content entry user_id), c.current.nextEntryId,
        strTake entry.date 4 ++ "/" ++ seriesOf s1 entry.protocol_series
          ++ "/" ++ pad6 (counterOf c.current (strTake entry.date 4)
            (seriesOf s1 entry.protocol_series) + 1)⟩ := by
    rw [hidem]
    exact findIdem_append_of_none _ _ _ hfresh rfl
  have h2 := post_replay_hit H entry user_id repos s2 k ts2 noFail c1 _
    hv rfl rfl hk hrow rfl
  simp only [postTwice, h1, h2]
  simp [okResult, hlen, hidem]

/-- C10 witness instance: same entry and key, series `"a"` then `"b"`;
both calls succeed with entry id 1 and protocol `"2025/A/000001"`, and the
tables hold a single new entry row and idempotence row. -/
theorem series_excluded_from_idem_hash_witness :
    validate entryBal reposAll = Except.ok [] ∧
    postTwice H0 entryBal "u1" reposAll (some "a") (some "b") "K" "t1" "t2"
        (connQ db0) =
      some ((true, some (connQ db0).current.nextEntryId,
          some (strTake entryBal.date 4 ++ "/" ++
            seriesOf (some "a") entryBal.protocol_series ++ "/" ++
            pad6 (counterOf (connQ db0).current (strTake entryBal.date 4)
              (seriesOf (some "a") entryBal.protocol_series) + 1))),
        (true, some (connQ db0).current.nextEntryId,
          some (strTake entryBal.date 4 ++ "/" ++
            seriesOf (some "a") entryBal.protocol_series ++ "/" ++
            pad6 (counterOf (connQ db0).current (strTake entryBal.date 4)
              (seriesOf (some "a") entryBal.protocol_series) + 1))),
        ((connQ db0).current.entries.length + 1,
         (connQ db0).current.idempotence.length + 1)) :=
  ⟨by decide, series_excluded_from_idem_hash H0 entryBal "u1" reposAll
    (some "a") (some "b") "K" "t1" "t2" (connQ db0)
    (by decide) (by decide) (by decide)⟩

/-- C2 (amended): provided the validation phase's repository reads return
(do not raise), `post` returns an `EntryResult` and never raises; an
exception inside the transaction is normalised by `dbErrorResult`, whose
message is `f"{type(e).__name__}: {e}"` and whose single error kind is
`IDEMPOTENCE_CONFLICT` when the message contains the conflict marker and
`DB_ERROR` otherwise. -/
theorem engine_boundary_normalisation (H : JVal → String) (entry : EntryDTO)
    (user_id : String) (repos : Repos) (ser key : Option String) (ts : String)
    (plan : FailPlan) (c : Conn) (errs : List LedgerError)
    (hv : validate entry repos = Except.ok errs) :
    (∃ out, post H entry user_id repos ser key ts plan c = Except.ok out) ∧
    (errs = [] → ∀ e c2,
      txRun plan.beginFail (postBody H entry user_id ser key ts plan) c =
        (Except.error e, c2) →
      post H entry user_id repos ser key ts plan c =
        Except.ok (dbErrorResult e, c2)) ∧
    (∀ e : PyExn, (dbErrorResult e).errors = [e.name ++ ": " ++ e.text] ∧
      (dbErrorResult e).error_details =
        [⟨if hasSub (e.name ++ ": " ++ e.text) "Idempotence conflict" then
            ErrorCode.IDEMPOTENCE_CONFLICT else ErrorCode.DB_ERROR,
          e.name ++ ": " ++ e.text⟩]) := by
  refine ⟨?_, ?_, fun e => ⟨rfl, rfl⟩⟩
  · by_cases he : errs = []
    · subst he
      rcases h : txRun plan.beginFail (postBody H entry user_id ser key ts plan) c
        with ⟨r, c2⟩
      cases r with
      | ok r0 =>
        exact ⟨(r0, c2), by rw [post_ok_tx H entry user_id repos ser key ts plan c hv, h]⟩
      | error e =>
        exact ⟨(dbErrorResult e, c2),
          by rw [post_ok_tx H entry user_id repos ser key ts plan c hv, h]⟩
    · exact ⟨(mkFailure errs, c),
        post_validation_failure H entry user_id repos ser key ts plan c errs hv he⟩
  · intro he e c2 htx
    subst he
    rw [post_ok_tx H entry user_id repos ser key ts plan c hv, htx]

/-- C2 witness instance: with `entryBal` and the step-9 failure plan, the
engine returns a result (no exception) and normalises the storage failure. -/
theorem engine_boundary_normalisation_witness :
    validate entryBal reposAll = Except.ok [] ∧
    ((∃ out, post H0 entryBal "u1" reposAll none (some "K1") "t0" planIdemFail
        (connQ db0) = Except.ok out) ∧
    (([] : List LedgerError) = [] → ∀ e c2,
      txRun planIdemFail.beginFail
          (postBody H0 entryBal "u1" none (some "K1") "t0" planIdemFail)
          (connQ db0) = (Except.error e, c2) →
      post H0 entryBal "u1" reposAll none (some "K1") "t0" planIdemFail
          (connQ db0) = Except.ok (dbErrorResult e, c2)) ∧
    (∀ e : PyExn, (dbErrorResult e).errors = [e.name ++ ": " ++ e.text] ∧
      (dbErrorResult e).error_details =
        [⟨if hasSub (e.name ++ ": " ++ e.text) "Idempotence conflict" then
            ErrorCode.IDEMPOTENCE_CONFLICT else ErrorCode.DB_ERROR,
          e.name ++ ": " ++ e.text⟩])) :=
  ⟨by decide, engine_boundary_normalisation H0 entryBal "u1" reposAll none
    (some "K1") "t0" planIdemFail (connQ db0) [] (by decide)⟩

theorem getLast?_mem_of_eq {α : Type} :
    ∀ (l : List α) (a : α), l.getLast? = some a → a ∈ l := by
  intro l
  induction l with
  | nil => intro a h; cases h
  | cons x xs ih =>
    intro a h
    cases xs with
    | nil =>
      simp only [List.getLast?_singleton, Option.some.injEq] at h
      simp [h]
    | cons y ys =>
      rw [List.getLast?_cons_cons] at h
      exact List.mem_cons_of_mem _ (ih a h)

theorem chainCheck_snoc (H : JVal → String) (r : AuditRow) :
    ∀ (rows : List AuditRow) (prev0 : Option String),
    chainCheck H prev0 rows = true →
    H r.payload = r.curr_hash →
    r.prev_hash = (match rows.getLast? with
      | some l => some l.curr_hash
      | none => prev0) →
    chainCheck H prev0 (rows ++ [r]) = true := by
  intro rows
  induction rows with
  | nil =>
    intro prev0 _ hh hp
    simp only [List.getLast?_nil] at hp
    simp [chainCheck, hh, hp]
  | cons a as ih =>
    intro prev0 hc hh hp
    unfold chainCheck at hc
    by_cases h1 : H a.payload ≠ a.curr_hash
    · rw [if_pos h1] at hc
      exact absurd hc (by simp)
    · rw [if_neg h1] at hc
      by_cases h2 : a.prev_hash ≠ prev0
      · rw [if_pos h2] at hc
        exact absurd hc (by simp)
      · rw [if_neg h2] at hc
        show chainCheck H prev0 (a :: (as ++ [r])) = true
        unfold chainCheck
        rw [if_neg h1, if_neg h2]
        apply ih (some a.curr_hash) hc hh
        cases as with
        | nil => simpa using hp
        | cons b bs =>
          rw [List.getLast?_cons_cons] at hp
          exact hp

theorem rowsFor_append (eid : Int) (log : List AuditRow) (r : AuditRow) :
    rowsFor eid (log ++ [r]) =
      rowsFor eid log ++ (if r.entry_id == some eid then [r] else []) := by
  simp only [rowsFor, List.filter_append, List.filter]
  cases h : (r.entry_id == some eid) <;> simp

theorem log_action_chain_step (H : JVal → String) (hH : ∀ p, H p ≠ "")
    (eid : Int) (he : eid ≠ 0) (a u : String) (p : JVal) (oe : Option Int)
    (ts : String) (c : Conn)
    (h1 : chainCheck H none (rowsFor eid c.current.audit_log) = true)
    (h2 : ∀ r ∈ rowsFor eid c.current.audit_log, r.curr_hash ≠ "") :
    chainCheck H none
      (rowsFor eid (log_action H a u p oe ts c).current.audit_log) = true ∧
    ∀ r ∈ rowsFor eid (log_action H a u p oe ts c).current.audit_log,
      r.curr_hash ≠ "" := by
  have hlog : (log_action H a u p oe ts c).current.audit_log =
      c.current.audit_log ++
      [{ id := c.current.nextAuditId, entry_id := oe, action := a,
         user_id := u, payload := withTimestamp p ts,
         prev_hash := if intTruthy oe then
             (match (rowsFor (oe.getD 0) c.current.audit_log).getLast? with
              | some row => if row.curr_hash ≠ "" then some row.curr_hash else none
              | none => none)
           else none,
         curr_hash := H (withTimestamp p ts) }] := rfl
  rw [hlog, rowsFor_append]
  by_cases hoe : oe = some eid
  · subst hoe
    have htr : intTruthy (some eid) = true := by simp [intTruthy, he]
    constructor
    · simp only [beq_self_eq_true, if_pos]
      apply chainCheck_snoc H _ _ none h1 rfl
      show (if intTruthy (some eid) then _ else none) = _
      rw [if_pos htr]
      show (match (rowsFor ((some eid).getD 0) c.current.audit_log).getLast? with
        | some row => if row.curr_hash ≠ "" then some row.curr_hash else none
        | none => none) = _
      cases hlast : (rowsFor eid c.current.audit_log).getLast? with
      | none => simp [hlast]
      | some l =>
        have hcurr := h2 l (getLast?_mem_of_eq _ _ hlast)
        simp [hlast, hcurr]
    · intro r hr
      simp only [beq_self_eq_true, if_pos, List.mem_append] at hr
      rcases hr with hr | hr
      · exact h2 r hr
      · simp only [List.mem_singleton] at hr
        subst hr
        exact hH _
  · have hne : (oe == some eid) = false := by simp [hoe]
    rw [hne]
    simp only [if_neg Bool.false_ne_true, List.append_nil]
    exact ⟨h1, h2⟩

/-- C6 (amended): for every *nonzero* entry id, after any sequence of
successful `log_action` calls starting from a log with no rows for that id,
`verify_chain` holds: each stored row's `curr_hash` is the hash of its
stored (timestamped) payload and each `prev_hash` equals the previous
row's `curr_hash` (`None` for the first).  (SHA-256 digests are nonempty,
whence the hypothesis on `H`.) -/
theorem audit_chain_integrity (H : JVal → String) (hH : ∀ p, H p ≠ "")
    (eid : Int) (he : eid ≠ 0) (calls : List LogCall) (c0 : Conn)
    (h0 : rowsFor eid c0.current.audit_log = []) :
    verify_chain H eid (applyCalls H calls c0).current = true := by
  suffices h : ∀ c : Conn,
      chainCheck H none (rowsFor eid c.current.audit_log) = true →
      (∀ r ∈ rowsFor eid c.current.audit_log, r.curr_hash ≠ "") →
      chainCheck H none
        (rowsFor eid (applyCalls H calls c).current.audit_log) = true by
    exact h c0 (by rw [h0]; rfl) (by rw [h0]; intro r hr; cases hr)
  induction calls with
  | nil =>
    intro c hc _
    simpa [applyCalls] using hc
  | cons k ks ih =>
    intro c hc hr
    simp only [applyCalls, List.foldl_cons] at *
    obtain ⟨hc', hr'⟩ := log_action_chain_step H hH eid he k.action k.user_id
      k.payload k.entry_id k.ts c hc hr
    exact ih _ hc' hr'

/-- C6 witness instance: two `log_action` calls for entry id 1 on a fresh
log leave a verifiable chain. -/
theorem audit_chain_integrity_witness :
    (∀ p, H0 p ≠ "") ∧ (1 : Int) ≠ 0 ∧
    rowsFor 1 (connQ db0).current.audit_log = [] ∧
    verify_chain H0 1 (applyCalls H0
      [⟨"POST", "u1", JVal.jobj [("k", JVal.jstr "v")], some 1, "t1"⟩,
       ⟨"POST", "u1", JVal.jobj [("k", JVal.jstr "w")], some 1, "t2"⟩]
      (connQ db0)).current = true :=
  ⟨fun _ => (show ("h" : String) ≠ "" by decide), by decide, rfl,
   audit_chain_integrity H0 (fun _ => (show ("h" : String) ≠ "" by decide)) 1 (by decide)
     [⟨"POST", "u1", JVal.jobj [("k", JVal.jstr "v")], some 1, "t1"⟩,
      ⟨"POST", "u1", JVal.jobj [("k", JVal.jstr "w")], some 1, "t2"⟩]
     (connQ db0) rfl⟩

/-- C6 (counterexample): for entry id 0 the chain breaks — `if entry_id:`
treats 0 as falsy, so the second row for id 0 is written with a null
`prev_hash`, and `verify_chain(0)` returns `False` after two calls. -/
theorem audit_chain_zero_id_broken :
    verify_chain H0 0 (applyCalls H0 [callZero, callZero] (connQ db0)).current
      = false := by decide
